import Mathlib

/-!
Verification development for the weather MCP server (main.py and the
app/ prototype modules). The Python code is shallowly embedded: each
endpoint handler becomes a pure Lean function over explicit state
(the in-memory client registry and authorization-code store) and an
explicit clock value `now` standing for time.time(). Randomly generated
strings (authorization codes, client ids and secrets, bearer tokens)
are passed in as oracle parameters, since only their flow, not their
distribution, is in scope.
-/

namespace WeatherMCP

/-- One registered OAuth client, as stored in the OAUTH_CLIENTS dict
(main.py lines 41-62, 193-200). `created_at` is an `Option` because the
development-fallback record (lines 56-62) omits that dict key. -/
structure ClientData where
  client_secret : String
  name : String
  redirect_uris : List String
  created_at : Option Nat
  scopes : List String
  active : Bool
deriving Repr, DecidableEq

/-- One stored authorization code value, as put into the
authorization_codes dict by oauth_authorize (main.py lines 269-278). -/
structure CodeData where
  client_id : String
  redirect_uri : String
  state : Option String
  scope : String
  code_challenge : Option String
  code_challenge_method : Option String
  expires_at : Nat
  created_at : Nat
deriving Repr, DecidableEq

/-- A Python dict keyed by strings, embedded as an association list with
unique keys maintained by `storeInsert`. -/
abbrev Store (α : Type) := List (String × α)

/-- Dict lookup: `d[k]` / `k in d`. -/
def storeLookup {α : Type} : Store α → String → Option α
  | [], _ => none
  | (k, v) :: rest, c => if k = c then some v else storeLookup rest c

/-- Dict deletion: `d.pop(k)` / `del d[k]` (drops every binding of `k`). -/
def storeErase {α : Type} : Store α → String → Store α
  | [], _ => []
  | (k, v) :: rest, c => if k = c then storeErase rest c else (k, v) :: storeErase rest c

/-- Dict assignment `d[k] = v`: any previous binding of `k` is replaced. -/
def storeInsert {α : Type} (s : Store α) (k : String) (v : α) : Store α :=
  storeErase s k ++ [(k, v)]

abbrev ClientStore := Store ClientData
abbrev CodeStore := Store CodeData

/-- Python truthiness of an optional string: `None` and `""` are falsy. -/
def truthy : Option String → Bool
  | none => false
  | some s => s != ""

/-- The distinct HTTPException raise sites of the two OAuth endpoints
(each constructor corresponds to one 400-status detail string in
main.py):
missingParams = "Missing required parameters: client_id and redirect_uri",
invalidClientId = "Invalid client ID",
invalidRedirectUri = "Invalid redirect URI",
unsupportedResponseType = the unsupported-response-type message,
unsupportedGrantType = the unsupported-grant-type message,
invalidClientSecret = "Invalid client secret",
invalidOrExpiredCode = "Invalid or expired authorization code",
codeExpired = "Authorization code expired",
redirectUriMismatch = "Redirect URI mismatch",
clientIdMismatch = "Client ID mismatch". -/
inductive OAuthErr
  | missingParams
  | invalidClientId
  | invalidRedirectUri
  | unsupportedResponseType
  | unsupportedGrantType
  | invalidClientSecret
  | invalidOrExpiredCode
  | codeExpired
  | redirectUriMismatch
  | clientIdMismatch
deriving Repr, DecidableEq

/-- The InvalidGrant bucket of the error taxonomy in the spec: code not
found or already consumed, code expired, redirect_uri mismatch,
client_id mismatch. -/
def OAuthErr.isInvalidGrant : OAuthErr → Bool
  | .invalidOrExpiredCode => true
  | .codeExpired => true
  | .redirectUriMismatch => true
  | .clientIdMismatch => true
  | _ => false

/-- Result of GET /oauth/authorize: an HTTPException or a RedirectResponse. -/
inductive AuthorizeResult
  | error (e : OAuthErr)
  | redirect (url : String)
deriving Repr, DecidableEq

/-- The AuthorizationCode value built on main.py lines 269-278. -/
def authCodeData (now : Nat) (cid ruri : String)
    (state scope code_challenge code_challenge_method : Option String) : CodeData :=
  { client_id := cid
    redirect_uri := ruri
    state := state
    scope := if truthy scope then scope.getD "" else "weather:read"
    code_challenge := code_challenge
    code_challenge_method := code_challenge_method
    expires_at := now + 600
    created_at := now }

/-- The clean-expired-codes pass of main.py lines 281-284: every entry
with time.time() > expires_at is deleted. -/
def sweepExpired (now : Nat) (s : CodeStore) : CodeStore :=
  s.filter (fun p => ! decide (now > p.2.expires_at))

/-- The redirect URL built on main.py lines 287-289: the code is always
appended, the state only when truthy. -/
def authorizeRedirectUrl (ruri auth_code : String) (state : Option String) : String :=
  ruri ++ "?code=" ++ auth_code ++
    (if truthy state then "&state=" ++ state.getD "" else "")

/-- GET /oauth/authorize (main.py lines 221-291). `auth_code` is the
fresh URL-safe random string produced by secrets.token_urlsafe(32); the
endpoint returns its result together with the updated
authorization-code store (unchanged on every error path). The advisory
scope check of lines 256-265 only prints and never rejects, so it has
no effect here. -/
def oauth_authorize (clients : ClientStore) (codes : CodeStore) (now : Nat)
    (auth_code : String) (response_type : String)
    (client_id redirect_uri state scope code_challenge code_challenge_method : Option String) :
    AuthorizeResult × CodeStore :=
  if ¬ (truthy client_id = true ∧ truthy redirect_uri = true) then
    (.error .missingParams, codes)
  else
    match storeLookup clients (client_id.getD "") with
    | none => (.error .invalidClientId, codes)
    | some client =>
      if (redirect_uri.getD "") ∉ client.redirect_uris then
        (.error .invalidRedirectUri, codes)
      else if response_type ≠ "code" then
        (.error .unsupportedResponseType, codes)
      else
        let code_data := authCodeData now (client_id.getD "") (redirect_uri.getD "")
          state scope code_challenge code_challenge_method
        let codes2 := sweepExpired now (storeInsert codes auth_code code_data)
        (.redirect (authorizeRedirectUrl (redirect_uri.getD "") auth_code state), codes2)

/-- The parsed form fields of a POST /oauth/token request; form_data.get
yields None for an absent field. -/
structure TokenForm where
  grant_type : Option String
  code : Option String
  redirect_uri : Option String
  client_id : Option String
  client_secret : Option String
  code_verifier : Option String
deriving Repr, DecidableEq

/-- The JSON body returned by a successful token exchange
(main.py lines 351-358). -/
structure TokenResponse where
  access_token : String
  token_type : String
  expires_in : Nat
  scope : String
  id_token : String
deriving Repr, DecidableEq

/-- Result of POST /oauth/token. -/
inductive TokenResult
  | error (e : OAuthErr)
  | ok (t : TokenResponse)
deriving Repr, DecidableEq

/-- `client_id in OAUTH_CLIENTS` followed by `OAUTH_CLIENTS[client_id]`,
where a missing form field (None) is in no dict. -/
def optClientLookup (clients : ClientStore) : Option String → Option ClientData
  | none => none
  | some cid => storeLookup clients cid

/-- The validations performed after the code has been popped from the
store (main.py lines 327-358): expiry, redirect_uri match, client_id
match, then token issuance. The PKCE branch of lines 340-343 only
prints, so it has no effect here. -/
def tokenValidate (now : Nat) (code_data : CodeData) (form : TokenForm)
    (freshToken : String) : TokenResult :=
  if now > code_data.expires_at then .error .codeExpired
  else if some code_data.redirect_uri ≠ form.redirect_uri then .error .redirectUriMismatch
  else if some code_data.client_id ≠ form.client_id then .error .clientIdMismatch
  else .ok
    { access_token := "mcp_at_" ++ freshToken
      token_type := "bearer"
      expires_in := 3600
      scope := code_data.scope
      id_token := "mcp_at_" ++ freshToken }

/-- POST /oauth/token (main.py lines 293-363). `freshToken` is the
random part of the bearer token. Returns the result with the updated
authorization-code store: the store loses the binding of `code`
exactly when execution reaches the pop on line 325, i.e. when
grant_type, client lookup and client_secret all validated and the code
was present; all later failures happen with the code already removed. -/
def oauth_token (clients : ClientStore) (codes : CodeStore) (now : Nat)
    (freshToken : String) (form : TokenForm) : TokenResult × CodeStore :=
  if form.grant_type ≠ some "authorization_code" then
    (.error .unsupportedGrantType, codes)
  else
    match optClientLookup clients form.client_id with
    | none => (.error .invalidClientId, codes)
    | some client =>
      if some client.client_secret ≠ form.client_secret then
        (.error .invalidClientSecret, codes)
      else
        match form.code with
        | none => (.error .invalidOrExpiredCode, codes)
        | some c =>
          match storeLookup codes c with
          | none => (.error .invalidOrExpiredCode, codes)
          | some code_data =>
            (tokenValidate now code_data form freshToken, storeErase codes c)

/-- Module-level initialization of OAUTH_CLIENTS (main.py lines 38-62):
when both AWS_CLIENT_ID and AWS_CLIENT_SECRET are set (getenv with
default "" makes unset variables empty, and nonempty strings are the
truthy ones), the AWS client is registered with created_at; otherwise
the development-fallback record, which has no created_at key, is
stored under the id aws_config_missing. -/
def initClients (awsId awsSecret : String) (now : Nat) : ClientStore :=
  if awsId != "" && awsSecret != "" then
    [(awsId,
      { client_secret := awsSecret
        name := "AWS QuickSight Weather Integration"
        redirect_uris := ["https://us-east-1.quicksight.aws.amazon.com/sn/oauthcallback"]
        created_at := some now
        scopes := ["openid", "mcp:stream", "weather:read"]
        active := true })]
  else
    [("aws_config_missing",
      { client_secret := "env_vars_not_set"
        name := "CONFIGURATION REQUIRED - Set AWS_CLIENT_ID and AWS_CLIENT_SECRET in Railway"
        redirect_uris := []
        created_at := none
        scopes := []
        active := false })]

/-- One entry of the JSON array returned by GET /api/clients
(main.py lines 166-172): exactly the five fields the handler copies. -/
structure ListedClient where
  client_id : String
  name : String
  redirect_uris : List String
  created_at : Nat
  active : Bool
deriving Repr, DecidableEq

/-- GET /api/clients (main.py lines 161-173). The loop reads
client_data["created_at"] with plain indexing, so the first client
whose record lacks that key aborts the handler with a KeyError (an
unhandled exception, surfaced as a 500); the Except error value names
the missing key. -/
def list_clients : ClientStore → Except String (List ListedClient)
  | [] => .ok []
  | p :: rest =>
    match p.2.created_at with
    | none => .error "created_at"
    | some t =>
      match list_clients rest with
      | .error e => .error e
      | .ok l => .ok
          ({ client_id := p.1
             name := p.2.name
             redirect_uris := p.2.redirect_uris
             created_at := t
             active := p.2.active } :: l)

/-- POST /api/clients/register (main.py lines 175-218): builds the new
client id from the random part `freshId` and stores the record shown on
lines 193-200. Returns the dict key and stored value; the caller
updates the registry with `storeInsert`. -/
def register_client (name : Option String) (redirect_uris : Option (List String))
    (freshId freshSecret : String) (now : Nat) : String × ClientData :=
  ("aws_" ++ freshId,
   { client_secret := freshSecret
     name := name.getD "AWS QuickSight Integration"
     redirect_uris := redirect_uris.getD
       ["https://us-east-1.quicksight.aws.amazon.com/sn/oauthcallback"]
     created_at := some now
     scopes := ["weather:read"]
     active := true })

/-! ## Weather service

Both implementations of WeatherService.get_weather make two upstream
HTTP calls (geocoding, then current weather). Each call is modelled by
an oracle outcome: either a network-level fault (an httpx.RequestError
such as a timeout or connection error) or a response carrying a status
code and a parsed JSON body. Bodies are modelled just finely enough to
distinguish the shapes the code branches on. -/

/-- Outcome of one upstream HTTP call. -/
inductive UpstreamOutcome (β : Type)
  | fault
  | response (status : Nat) (body : β)
deriving Repr, DecidableEq

/-- One element of the geocoding response array. -/
structure GeoEntry where
  lat : ℚ
  lon : ℚ
deriving Repr, DecidableEq

/-- Parsed JSON body of the geocoding call: either an array of entries
(possibly empty) or a non-array error object, on which the subscript
geo_data[0] raises. -/
inductive GeoBody
  | entries (l : List GeoEntry)
  | errorObject
deriving Repr, DecidableEq

/-- The fields both implementations read out of the weather response. -/
structure WeatherFields where
  name : String
  temp : ℚ
  humidity : ℤ
deriving Repr, DecidableEq

/-- Parsed JSON body of the weather call: either an object with the
expected keys or an error object whose subscripts raise KeyError. -/
inductive WxBody
  | record (w : WeatherFields)
  | errorObject
deriving Repr, DecidableEq

/-- A Python exception that is not an HTTPException, left to propagate
out of the handler. -/
inductive RawExn
  | requestError
  | keyError
  | attributeError
deriving Repr, DecidableEq

/-- How a get_weather invocation can end, classified by which raise
site (or success) produced it. -/
inductive FetchErrKind
  | configuration
  | upstreamGeo
  | cityNotFound
  | upstreamWeather
  | network
  | malformedBody
deriving Repr, DecidableEq

/-- Observable outcome of a get_weather invocation: an HTTPException
with the given status (a structured error response), a weather record,
or a raw non-HTTP exception propagating out of the service. -/
inductive FetchOutcome (W : Type)
  | httpError (status : Nat) (kind : FetchErrKind)
  | ok (w : W)
  | raised (e : RawExn)
deriving Repr, DecidableEq

/-- The UpstreamError bucket of the error taxonomy in the spec: a
structured error response caused by a non-success upstream status or a
network-level fault. -/
def FetchOutcome.isUpstreamErr {W : Type} : FetchOutcome W → Bool
  | .httpError _ .upstreamGeo => true
  | .httpError _ .upstreamWeather => true
  | .httpError _ .network => true
  | _ => false

/-- The record main.py builds on success; only the fields the claims
touch are carried, with the rest of the reshape (lines 132-153) elided
into these three plus the coordinates. -/
structure MainRecord where
  city : String
  temperature : ℚ
  humidity : ℤ
  lat : ℚ
  lon : ℚ
deriving Repr, DecidableEq

/-- WeatherService.get_weather of main.py (lines 68-158). The missing
API key is raised outside the try block. Inside the try, every
HTTPException raised for a non-200 status or an empty geocoding result
is itself an Exception, so it is caught by the final handler on line
157 and re-raised as HTTPException(500, str(e)); an httpx.RequestError
is caught on line 155 and becomes HTTPException(500, network error);
KeyError from an unexpected body shape is also caught on line 157. The
function therefore never lets a raw exception escape, and every error
surfaces with status 500. -/
def main_get_weather (hasKey : Bool) (geo : UpstreamOutcome GeoBody)
    (wx : UpstreamOutcome WxBody) : FetchOutcome MainRecord :=
  if !hasKey then .httpError 500 .configuration
  else
    match geo with
    | .fault => .httpError 500 .network
    | .response gs gb =>
      if gs ≠ 200 then .httpError 500 .upstreamGeo
      else
        match gb with
        | .errorObject => .httpError 500 .malformedBody
        | .entries [] => .httpError 500 .cityNotFound
        | .entries (e :: _) =>
          match wx with
          | .fault => .httpError 500 .network
          | .response ws wb =>
            if ws ≠ 200 then .httpError 500 .upstreamWeather
            else
              match wb with
              | .errorObject => .httpError 500 .malformedBody
              | .record w => .ok
                  { city := w.name
                    temperature := w.temp
                    humidity := w.humidity
                    lat := e.lat
                    lon := e.lon }

/-- The record the app/services prototype builds on success
(weather_service.py lines 52-59), restricted to the same fields. -/
structure AppRecord where
  city : String
  temperature : ℚ
  humidity : ℤ
deriving Repr, DecidableEq

/-- WeatherService.get_weather of app/services/weather_service.py
(lines 14-59). This version has no try/except and never inspects
status codes: an httpx.RequestError propagates uncaught; a geocoding
body that is not a list makes geo_data[0] raise; a weather body
without the expected keys raises KeyError; only the empty geocoding
result is turned into an HTTPException (404). -/
def app_get_weather (hasKey : Bool) (geo : UpstreamOutcome GeoBody)
    (wx : UpstreamOutcome WxBody) : FetchOutcome AppRecord :=
  if !hasKey then .httpError 500 .configuration
  else
    match geo with
    | .fault => .raised .requestError
    | .response _gs gb =>
      match gb with
      | .errorObject => .raised .keyError
      | .entries [] => .httpError 404 .cityNotFound
      | .entries (_e :: _) =>
        match wx with
        | .fault => .raised .requestError
        | .response _ws wb =>
          match wb with
          | .errorObject => .raised .keyError
          | .record w => .ok
              { city := w.name
                temperature := w.temp
                humidity := w.humidity }

/-! ## Tool dispatcher: compare_weather -/

/-- The comparison computed by the compare_weather branch of
/api/tools/call (main.py lines 487-518): the warmer city name, the
absolute temperature difference and the absolute humidity difference
shown in the response text. -/
structure CompareResult where
  warmer_city : String
  temp_diff : ℚ
  humidity_diff : ℤ
deriving Repr, DecidableEq

/-- main.py lines 497-498 and 517: warmer_city is city1 iff its
temperature is strictly greater, otherwise city2; both deltas are
absolute values. `w1` and `w2` are the two fetched weather records. -/
def compare_weather (city1 city2 : String) (w1 w2 : MainRecord) : CompareResult :=
  { warmer_city := if w1.temperature > w2.temperature then city1 else city2
    temp_diff := |w1.temperature - w2.temperature|
    humidity_diff := |w1.humidity - w2.humidity| }

/-- The same selection in the app/mcp/tools prototype
(weather.py line 25): city1 iff strictly warmer, else city2. -/
def app_compare_warmer (city1 city2 : String) (w1 w2 : AppRecord) : String :=
  if w1.temperature > w2.temperature then city1 else city2

/-! ## SSE endpoint -/

/-- The two event types the /sse generator yields. -/
inductive SSEEvent
  | mcp_connected
  | heartbeat
deriving Repr, DecidableEq

/-- The sequence of events the event_generator of main.py lines 539-559
would yield: the connection event first, then heartbeats forever. -/
def sse_event_sequence (n : Nat) : SSEEvent :=
  if n = 0 then .mcp_connected else .heartbeat

/-- What mcp_sse_endpoint passes to the Response constructor
(main.py line 562): not a string, but the async generator object
returned by calling event_generator(). -/
inductive ResponseContent
  | text (s : String)
  | asyncGeneratorObject
deriving Repr, DecidableEq

/-- Response.render of the underlying framework (starlette): content
that is None or bytes passes through, any other content has
content.encode(charset) called on it. An async generator object has no
encode attribute, so rendering it raises AttributeError before any
chunk is sent. -/
def response_render : ResponseContent → Except RawExn String
  | .text s => .ok s
  | .asyncGeneratorObject => .error .attributeError

/-- GET /sse (main.py lines 536-569): constructs a plain Response whose
content is the async generator object, so the constructor renders
that object. -/
def mcp_sse_endpoint : Except RawExn String :=
  response_render .asyncGeneratorObject

/-! ## Concrete fixtures used by the witness theorems -/

/-- A sample registered client. -/
def wClient : ClientData :=
  { client_secret := "sec"
    name := "AWS QuickSight Weather Integration"
    redirect_uris := ["https://cb.example/oauth"]
    created_at := some 0
    scopes := ["weather:read"]
    active := true }

/-- A one-client registry. -/
def wClients : ClientStore := [("cid", wClient)]

/-- A sample stored authorization code value, issued at time 0. -/
def wCode : CodeData :=
  authCodeData 0 "cid" "https://cb.example/oauth" none (some "weather:read") none none

/-- A one-code store. -/
def wCodes : CodeStore := [("abc", wCode)]

/-- A well-formed token-exchange form for the sample code. -/
def wForm : TokenForm :=
  { grant_type := some "authorization_code"
    code := some "abc"
    redirect_uri := some "https://cb.example/oauth"
    client_id := some "cid"
    client_secret := some "sec"
    code_verifier := none }

/-! ## Store lemmas -/

lemma storeLookup_erase_self {α : Type} (s : Store α) (k : String) :
    storeLookup (storeErase s k) k = none := by
  induction s with
  | nil => rfl
  | cons p rest ih =>
    obtain ⟨k1, v1⟩ := p
    by_cases h : k1 = k
    · simpa [storeErase, h] using ih
    · simpa [storeErase, storeLookup, h] using ih

lemma storeLookup_append_of_none {α : Type} {a : Store α} (b : Store α) {k : String}
    (h : storeLookup a k = none) : storeLookup (a ++ b) k = storeLookup b k := by
  induction a with
  | nil => rfl
  | cons p rest ih =>
    obtain ⟨k1, v1⟩ := p
    simp only [storeLookup] at h
    by_cases hk : k1 = k
    · rw [if_pos hk] at h
      exact absurd h (by simp)
    · rw [if_neg hk] at h
      simp only [List.cons_append, storeLookup, if_neg hk]
      exact ih h

lemma storeLookup_filter_none {α : Type} {s : Store α} (p : String × α → Bool) {k : String}
    (h : storeLookup s k = none) : storeLookup (s.filter p) k = none := by
  induction s with
  | nil => rfl
  | cons q rest ih =>
    obtain ⟨k1, v1⟩ := q
    by_cases hk : k1 = k
    · simp [storeLookup, hk] at h
    · simp only [storeLookup, hk, if_false] at h
      by_cases hp : p (k1, v1)
      · simpa [List.filter, hp, storeLookup, hk] using ih h
      · simpa [List.filter, hp] using ih h

lemma mem_storeErase_of_ne {α : Type} {q : String × α} {s : Store α} {k : String}
    (hq : q ∈ s) (hne : q.1 ≠ k) : q ∈ storeErase s k := by
  induction s with
  | nil => simp at hq
  | cons p rest ih =>
    obtain ⟨k1, v1⟩ := p
    rcases List.mem_cons.mp hq with h | h
    · subst h
      simp only [storeErase]
      rw [if_neg hne]
      exact List.mem_cons_self _ _
    · by_cases hk : k1 = k
      · simpa [storeErase, hk] using ih h
      · simp only [storeErase, hk, if_false]
        exact List.mem_cons_of_mem _ (ih h)

lemma storeLookup_sweep_insert_self (now : Nat) (s : CodeStore) (k : String) (v : CodeData)
    (hv : ¬ now > v.expires_at) :
    storeLookup (sweepExpired now (storeInsert s k v)) k = some v := by
  unfold sweepExpired storeInsert
  rw [List.filter_append]
  rw [storeLookup_append_of_none _
    (storeLookup_filter_none _ (storeLookup_erase_self s k))]
  simp [List.filter, storeLookup, decide_eq_false hv]

/-! ## Endpoint reduction lemmas -/

/-- When a token request passes the grant-type, client-lookup and
client-secret checks and the code is present, oauth_token reduces to
the post-pop validations paired with the store minus the code. -/
lemma oauth_token_reached_pop
    (clients : ClientStore) (codes : CodeStore) (now : Nat) (tok : String)
    (form : TokenForm) (client : ClientData) (c : String) (d : CodeData)
    (hgrant : form.grant_type = some "authorization_code")
    (hclient : optClientLookup clients form.client_id = some client)
    (hsecret : form.client_secret = some client.client_secret)
    (hcode : form.code = some c)
    (hfound : storeLookup codes c = some d) :
    oauth_token clients codes now tok form =
      (tokenValidate now d form tok, storeErase codes c) := by
  simp [oauth_token, hgrant, hclient, hsecret, hcode, hfound]

/-- When a token request passes the grant-type, client-lookup and
client-secret checks but the code is absent from the store, oauth_token
fails with the invalid-or-expired-code error and leaves the store
unchanged. -/
lemma oauth_token_code_absent
    (clients : ClientStore) (codes : CodeStore) (now : Nat) (tok : String)
    (form : TokenForm) (client : ClientData) (c : String)
    (hgrant : form.grant_type = some "authorization_code")
    (hclient : optClientLookup clients form.client_id = some client)
    (hsecret : form.client_secret = some client.client_secret)
    (hcode : form.code = some c)
    (habsent : storeLookup codes c = none) :
    oauth_token clients codes now tok form = (.error .invalidOrExpiredCode, codes) := by
  simp [oauth_token, hgrant, hclient, hsecret, hcode, habsent]

/-- When the authorize request passes all four validations, the
endpoint redirects and the new store is the sweep of the store with
the fresh code inserted. -/
lemma oauth_authorize_success_eq
    (clients : ClientStore) (codes : CodeStore) (now : Nat) (ac rt : String)
    (cid ruri st sc cc ccm : Option String) (client : ClientData)
    (hcid : truthy cid = true) (hruri : truthy ruri = true)
    (hclient : storeLookup clients (cid.getD "") = some client)
    (hallowed : (ruri.getD "") ∈ client.redirect_uris)
    (hrt : rt = "code") :
    oauth_authorize clients codes now ac rt cid ruri st sc cc ccm =
      (.redirect (authorizeRedirectUrl (ruri.getD "") ac st),
       sweepExpired now (storeInsert codes ac
         (authCodeData now (cid.getD "") (ruri.getD "") st sc cc ccm))) := by
  simp [oauth_authorize, hcid, hruri, hclient, hallowed, hrt]

/-- A token form for the same client but redirecting to a different URI
than the one stored with the code. -/
def wFormBadRedirect : TokenForm :=
  { wForm with redirect_uri := some "https://evil.example/cb" }

/-- A token form exchanging the code issued in the TTL witness. -/
def wFormXyz : TokenForm :=
  { wForm with code := some "xyz" }

/-! ## Claim theorems -/

/-- C1: an authorization code can be exchanged at most once. Whenever a
token request reaches the code lookup (grant_type, client lookup and
client secret all validated) and the code is present, the code is
removed from the store before the expiry, redirect_uri and client_id
validations run, so regardless of how that first exchange ends, any
later exchange presenting the same code fails with the InvalidGrant
error whose detail is the invalid-or-expired-authorization-code
message. -/
theorem authorization_code_single_use
    (clients : ClientStore) (codes : CodeStore) (now : Nat) (tok : String)
    (form : TokenForm) (client : ClientData) (c : String) (d : CodeData)
    (hgrant : form.grant_type = some "authorization_code")
    (hclient : optClientLookup clients form.client_id = some client)
    (hsecret : form.client_secret = some client.client_secret)
    (hcode : form.code = some c)
    (hfound : storeLookup codes c = some d) :
    (oauth_token clients codes now tok form).2 = storeErase codes c ∧
    storeLookup (oauth_token clients codes now tok form).2 c = none ∧
    ∀ (now2 : Nat) (tok2 : String) (form2 : TokenForm) (client2 : ClientData),
      form2.grant_type = some "authorization_code" →
      optClientLookup clients form2.client_id = some client2 →
      form2.client_secret = some client2.client_secret →
      form2.code = some c →
      (oauth_token clients (oauth_token clients codes now tok form).2 now2 tok2 form2).1
          = .error .invalidOrExpiredCode ∧
        OAuthErr.isInvalidGrant .invalidOrExpiredCode = true := by
  have h1 := oauth_token_reached_pop clients codes now tok form client c d
    hgrant hclient hsecret hcode hfound
  refine ⟨by rw [h1], ?_, ?_⟩
  · rw [h1]
    exact storeLookup_erase_self codes c
  · intro now2 tok2 form2 client2 hg2 hc2 hs2 hcode2
    rw [h1]
    have h2 := oauth_token_code_absent clients (storeErase codes c) now2 tok2 form2
      client2 c hg2 hc2 hs2 hcode2 (storeLookup_erase_self codes c)
    exact ⟨by rw [h2], rfl⟩

/-- Witness for C1: the sample code is consumed by a first
(successful) exchange and a replay fails with InvalidGrant. -/
theorem authorization_code_single_use_witness :
    (oauth_token wClients wCodes 1 "t1" wForm).2 = storeErase wCodes "abc" ∧
    storeLookup (oauth_token wClients wCodes 1 "t1" wForm).2 "abc" = none ∧
    (oauth_token wClients (oauth_token wClients wCodes 1 "t1" wForm).2 2 "t2" wForm).1
      = .error .invalidOrExpiredCode := by
  have h := authorization_code_single_use wClients wCodes 1 "t1" wForm wClient "abc" wCode
    rfl (by decide) rfl rfl (by decide)
  exact ⟨h.1, h.2.1, (h.2.2 2 "t2" wForm wClient rfl (by decide) rfl rfl).1⟩

/-- C2: an issued code is stored with a 600 second TTL, and exchanging
it after expiry fails with the InvalidGrant error whose detail is the
authorization-code-expired message, even if the code was never used
(it is still in the store at exchange time). -/
theorem authorization_code_ttl :
    (∀ (clients : ClientStore) (codes : CodeStore) (now : Nat) (ac rt : String)
       (cid ruri st sc cc ccm : Option String) (u : String),
       (oauth_authorize clients codes now ac rt cid ruri st sc cc ccm).1 = .redirect u →
       ∃ d : CodeData,
         storeLookup (oauth_authorize clients codes now ac rt cid ruri st sc cc ccm).2 ac
             = some d ∧
           d.expires_at = now + 600) ∧
    (∀ (clients : ClientStore) (codes : CodeStore) (now2 : Nat) (tok : String)
       (form : TokenForm) (client : ClientData) (c : String) (d : CodeData),
       form.grant_type = some "authorization_code" →
       optClientLookup clients form.client_id = some client →
       form.client_secret = some client.client_secret →
       form.code = some c →
       storeLookup codes c = some d →
       now2 > d.expires_at →
       (oauth_token clients codes now2 tok form).1 = .error .codeExpired ∧
         OAuthErr.isInvalidGrant .codeExpired = true) := by
  constructor
  · intro clients codes now ac rt cid ruri st sc cc ccm u h
    by_cases h1 : truthy cid = true ∧ truthy ruri = true
    · obtain ⟨hcid, hruri⟩ := h1
      cases hcl : storeLookup clients (cid.getD "") with
      | none => simp [oauth_authorize, hcid, hruri, hcl] at h
      | some client =>
        by_cases hall : (ruri.getD "") ∈ client.redirect_uris
        · by_cases hrt : rt = "code"
          · rw [oauth_authorize_success_eq clients codes now ac rt cid ruri st sc cc ccm
              client hcid hruri hcl hall hrt]
            refine ⟨authCodeData now (cid.getD "") (ruri.getD "") st sc cc ccm, ?_, rfl⟩
            exact storeLookup_sweep_insert_self now codes ac _ (by simp [authCodeData])
          · simp [oauth_authorize, hcid, hruri, hcl, hall, hrt] at h
        · simp [oauth_authorize, hcid, hruri, hcl, hall] at h
    · simp [oauth_authorize, h1] at h
  · intro clients codes now2 tok form client c d hgrant hclient hsecret hcode hfound hexp
    rw [oauth_token_reached_pop clients codes now2 tok form client c d
      hgrant hclient hsecret hcode hfound]
    refine ⟨?_, rfl⟩
    show tokenValidate now2 d form tok = .error .codeExpired
    unfold tokenValidate
    rw [if_pos hexp]

/-- Witness for C2: a code issued at time 0 carries expires_at = 600
and its exchange at time 601 fails as expired. -/
theorem authorization_code_ttl_witness :
    (∃ d : CodeData,
       storeLookup (oauth_authorize wClients [] 0 "xyz" "code" (some "cid")
           (some "https://cb.example/oauth") none none none none).2 "xyz" = some d ∧
         d.expires_at = 0 + 600) ∧
    (oauth_token wClients (oauth_authorize wClients [] 0 "xyz" "code" (some "cid")
        (some "https://cb.example/oauth") none none none none).2 601 "t" wFormXyz).1
      = .error .codeExpired := by
  have h := authorization_code_ttl
  refine ⟨h.1 wClients [] 0 "xyz" "code" (some "cid") (some "https://cb.example/oauth")
    none none none none "https://cb.example/oauth?code=xyz" (by decide), ?_⟩
  exact (h.2 wClients _ 601 "t" wFormXyz wClient "xyz"
    (authCodeData 0 "cid" "https://cb.example/oauth" none none none none)
    rfl (by decide) rfl rfl (by decide) (by decide)).1

/-- C3: once a token request has consumed a live code, the exchange
fails with InvalidGrant on a redirect_uri differing from the one stored
at authorization, or on a client_id differing from the stored one, and
it returns a token exactly when both match. -/
theorem oauth_token_binding_checks
    (clients : ClientStore) (codes : CodeStore) (now : Nat) (tok : String)
    (form : TokenForm) (client : ClientData) (c : String) (d : CodeData)
    (hgrant : form.grant_type = some "authorization_code")
    (hclient : optClientLookup clients form.client_id = some client)
    (hsecret : form.client_secret = some client.client_secret)
    (hcode : form.code = some c)
    (hfound : storeLookup codes c = some d)
    (hexp : ¬ now > d.expires_at) :
    (form.redirect_uri ≠ some d.redirect_uri →
       (oauth_token clients codes now tok form).1 = .error .redirectUriMismatch ∧
         OAuthErr.isInvalidGrant .redirectUriMismatch = true) ∧
    (form.redirect_uri = some d.redirect_uri → form.client_id ≠ some d.client_id →
       (oauth_token clients codes now tok form).1 = .error .clientIdMismatch ∧
         OAuthErr.isInvalidGrant .clientIdMismatch = true) ∧
    ((∃ t, (oauth_token clients codes now tok form).1 = TokenResult.ok t) ↔
       form.redirect_uri = some d.redirect_uri ∧ form.client_id = some d.client_id) := by
  rw [oauth_token_reached_pop clients codes now tok form client c d
    hgrant hclient hsecret hcode hfound]
  refine ⟨?_, ?_, ?_⟩
  · intro hne
    refine ⟨?_, rfl⟩
    show tokenValidate now d form tok = .error .redirectUriMismatch
    unfold tokenValidate
    rw [if_neg hexp, if_pos (Ne.symm hne)]
  · intro hr hne
    refine ⟨?_, rfl⟩
    show tokenValidate now d form tok = .error .clientIdMismatch
    unfold tokenValidate
    rw [if_neg hexp, if_neg (fun h => h hr.symm), if_pos (Ne.symm hne)]
  · constructor
    · rintro ⟨t, ht⟩
      change tokenValidate now d form tok = TokenResult.ok t at ht
      by_cases hr : form.redirect_uri = some d.redirect_uri
      · by_cases hc2 : form.client_id = some d.client_id
        · exact ⟨hr, hc2⟩
        · unfold tokenValidate at ht
          rw [if_neg hexp, if_neg (fun h => h hr.symm), if_pos (Ne.symm hc2)] at ht
          exact absurd ht (by simp)
      · unfold tokenValidate at ht
        rw [if_neg hexp, if_pos (Ne.symm hr)] at ht
        exact absurd ht (by simp)
    · rintro ⟨hr, hc2⟩
      have hv : tokenValidate now d form tok = TokenResult.ok
          { access_token := "mcp_at_" ++ tok
            token_type := "bearer"
            expires_in := 3600
            scope := d.scope
            id_token := "mcp_at_" ++ tok } := by
        unfold tokenValidate
        rw [if_neg hexp, if_neg (fun h => h hr.symm), if_neg (fun h => h hc2.symm)]
      exact ⟨_, hv⟩

/-- Witness for C3: with the sample live code, a mismatched
redirect_uri fails with InvalidGrant and the matching form obtains a
token. -/
theorem oauth_token_binding_checks_witness :
    (oauth_token wClients wCodes 1 "t" wFormBadRedirect).1 = .error .redirectUriMismatch ∧
    ∃ t, (oauth_token wClients wCodes 1 "t" wForm).1 = TokenResult.ok t := by
  have h1 := oauth_token_binding_checks wClients wCodes 1 "t" wFormBadRedirect wClient
    "abc" wCode rfl (by decide) rfl rfl (by decide) (by decide)
  have h2 := oauth_token_binding_checks wClients wCodes 1 "t" wForm wClient
    "abc" wCode rfl (by decide) rfl rfl (by decide) (by decide)
  exact ⟨(h1.1 (by decide)).1, h2.2.2.mpr ⟨rfl, rfl⟩⟩

/-- A code store holding one code issued at time 0, hence expired at
time 1000, used to exercise the sweep. -/
def wOldCodes : CodeStore :=
  [("old", authCodeData 0 "cid" "https://cb.example/oauth" none none none none)]

/-- C4: the authorize validation cascade. A missing (falsy) client_id
or redirect_uri fails with the missing-parameters 400; past that, an
unregistered client_id fails with the invalid-client error; past that,
a redirect_uri outside the allowed list (exact string membership) fails
with the invalid-redirect-uri error; past that, a response_type other
than code fails with the unsupported-response-type error; and the
request redirects exactly when none of these conditions hold. -/
theorem oauth_authorize_validation
    (clients : ClientStore) (codes : CodeStore) (now : Nat) (ac rt : String)
    (cid ruri st sc cc ccm : Option String) :
    (¬ (truthy cid = true ∧ truthy ruri = true) →
       oauth_authorize clients codes now ac rt cid ruri st sc cc ccm
         = (.error .missingParams, codes)) ∧
    (truthy cid = true → truthy ruri = true →
       storeLookup clients (cid.getD "") = none →
       oauth_authorize clients codes now ac rt cid ruri st sc cc ccm
         = (.error .invalidClientId, codes)) ∧
    (∀ client : ClientData, truthy cid = true → truthy ruri = true →
       storeLookup clients (cid.getD "") = some client →
       (ruri.getD "") ∉ client.redirect_uris →
       oauth_authorize clients codes now ac rt cid ruri st sc cc ccm
         = (.error .invalidRedirectUri, codes)) ∧
    (∀ client : ClientData, truthy cid = true → truthy ruri = true →
       storeLookup clients (cid.getD "") = some client →
       (ruri.getD "") ∈ client.redirect_uris → rt ≠ "code" →
       oauth_authorize clients codes now ac rt cid ruri st sc cc ccm
         = (.error .unsupportedResponseType, codes)) ∧
    ((∃ u, (oauth_authorize clients codes now ac rt cid ruri st sc cc ccm).1
        = .redirect u) ↔
      truthy cid = true ∧ truthy ruri = true ∧
        ∃ client : ClientData, storeLookup clients (cid.getD "") = some client ∧
          (ruri.getD "") ∈ client.redirect_uris ∧ rt = "code") := by
  refine ⟨?_, ?_, ?_, ?_, ?_⟩
  · intro h1
    simp [oauth_authorize, h1]
  · intro hcid hruri hcl
    simp [oauth_authorize, hcid, hruri, hcl]
  · intro client hcid hruri hcl hall
    simp [oauth_authorize, hcid, hruri, hcl, hall]
  · intro client hcid hruri hcl hall hrt
    simp [oauth_authorize, hcid, hruri, hcl, hall, hrt]
  · constructor
    · rintro ⟨u, hu⟩
      by_cases h1 : truthy cid = true ∧ truthy ruri = true
      · obtain ⟨hcid, hruri⟩ := h1
        cases hcl : storeLookup clients (cid.getD "") with
        | none => simp [oauth_authorize, hcid, hruri, hcl] at hu
        | some client =>
          by_cases hall : (ruri.getD "") ∈ client.redirect_uris
          · by_cases hrt : rt = "code"
            · exact ⟨hcid, hruri, client, rfl, hall, hrt⟩
            · simp [oauth_authorize, hcid, hruri, hcl, hall, hrt] at hu
          · simp [oauth_authorize, hcid, hruri, hcl, hall] at hu
      · simp [oauth_authorize, h1] at hu
    · rintro ⟨hcid, hruri, client, hcl, hall, hrt⟩
      exact ⟨authorizeRedirectUrl (ruri.getD "") ac st,
        by rw [oauth_authorize_success_eq clients codes now ac rt cid ruri st sc cc ccm
          client hcid hruri hcl hall hrt]⟩

/-- Witness for C4: each validation outcome observed on the sample
registry at a concrete input. -/
theorem oauth_authorize_validation_witness :
    oauth_authorize wClients [] 0 "z" "code" none (some "https://cb.example/oauth")
        none none none none = (.error .missingParams, []) ∧
    oauth_authorize wClients [] 0 "z" "code" (some "nope")
        (some "https://cb.example/oauth") none none none none
      = (.error .invalidClientId, []) ∧
    oauth_authorize wClients [] 0 "z" "code" (some "cid") (some "https://other.example/")
        none none none none = (.error .invalidRedirectUri, []) ∧
    oauth_authorize wClients [] 0 "z" "token" (some "cid")
        (some "https://cb.example/oauth") none none none none
      = (.error .unsupportedResponseType, []) ∧
    ∃ u, (oauth_authorize wClients [] 0 "z" "code" (some "cid")
        (some "https://cb.example/oauth") none none none none).1 = .redirect u := by
  refine ⟨?_, ?_, ?_, ?_, ?_⟩
  · exact (oauth_authorize_validation wClients [] 0 "z" "code" none
      (some "https://cb.example/oauth") none none none none).1 (by decide)
  · exact (oauth_authorize_validation wClients [] 0 "z" "code" (some "nope")
      (some "https://cb.example/oauth") none none none none).2.1 rfl rfl (by decide)
  · exact (oauth_authorize_validation wClients [] 0 "z" "code" (some "cid")
      (some "https://other.example/") none none none none).2.2.1 wClient rfl rfl
      (by decide) (by decide)
  · exact (oauth_authorize_validation wClients [] 0 "z" "token" (some "cid")
      (some "https://cb.example/oauth") none none none none).2.2.2.1 wClient rfl rfl
      (by decide) (by decide) (by decide)
  · exact (oauth_authorize_validation wClients [] 0 "z" "code" (some "cid")
      (some "https://cb.example/oauth") none none none none).2.2.2.2.mpr
      ⟨rfl, rfl, wClient, by decide, by decide, rfl⟩

/-- C5: on a successful authorize call the fresh code is stored with
expires_at = now + 600, the sweep leaves no expired code in the store
(and removes nothing unexpired besides any entry the fresh code
overwrote), and the response redirects to the supplied redirect_uri
with the code appended, plus the state exactly when one was supplied
(a supplied state is a non-falsy one, matching the truthiness test in
the source). The fresh random code itself enters as the oracle
parameter `ac`. -/
theorem oauth_authorize_success_effects
    (clients : ClientStore) (codes : CodeStore) (now : Nat) (ac rt : String)
    (cid ruri st sc cc ccm : Option String) (client : ClientData)
    (hcid : truthy cid = true) (hruri : truthy ruri = true)
    (hclient : storeLookup clients (cid.getD "") = some client)
    (hallowed : (ruri.getD "") ∈ client.redirect_uris)
    (hrt : rt = "code")
    (hstate : st = none ∨ ∃ s, st = some s ∧ s ≠ "") :
    storeLookup (oauth_authorize clients codes now ac rt cid ruri st sc cc ccm).2 ac
        = some (authCodeData now (cid.getD "") (ruri.getD "") st sc cc ccm) ∧
    (authCodeData now (cid.getD "") (ruri.getD "") st sc cc ccm).expires_at = now + 600 ∧
    (∀ q ∈ (oauth_authorize clients codes now ac rt cid ruri st sc cc ccm).2,
       ¬ now > q.2.expires_at) ∧
    (∀ q ∈ codes, ¬ now > q.2.expires_at → q.1 ≠ ac →
       q ∈ (oauth_authorize clients codes now ac rt cid ruri st sc cc ccm).2) ∧
    (oauth_authorize clients codes now ac rt cid ruri st sc cc ccm).1
      = .redirect ((ruri.getD "") ++ "?code=" ++ ac ++
          (match st with | none => "" | some s => "&state=" ++ s)) := by
  rw [oauth_authorize_success_eq clients codes now ac rt cid ruri st sc cc ccm
    client hcid hruri hclient hallowed hrt]
  refine ⟨?_, rfl, ?_, ?_, ?_⟩
  · exact storeLookup_sweep_insert_self now codes ac _ (by simp [authCodeData])
  · intro q hq
    have h2 := (List.mem_filter.mp hq).2
    simpa using h2
  · intro q hq hkeep hne
    refine List.mem_filter.mpr ⟨?_, by simpa using hkeep⟩
    exact List.mem_append_left _ (mem_storeErase_of_ne hq hne)
  · rcases hstate with h | ⟨s, hs, hsne⟩
    · subst h
      rfl
    · subst hs
      simp [authorizeRedirectUrl, truthy, hsne]

/-- Witness for C5: authorizing at time 1000 with a state stores the
fresh code with expires_at = 1600, removes the code issued at time 0,
and redirects with both code and state query parameters. -/
theorem oauth_authorize_success_effects_witness :
    storeLookup (oauth_authorize wClients wOldCodes 1000 "new" "code" (some "cid")
        (some "https://cb.example/oauth") (some "s1") none none none).2 "new"
      = some (authCodeData 1000 "cid" "https://cb.example/oauth" (some "s1")
          none none none) ∧
    ("old", authCodeData 0 "cid" "https://cb.example/oauth" none none none none)
      ∉ (oauth_authorize wClients wOldCodes 1000 "new" "code" (some "cid")
          (some "https://cb.example/oauth") (some "s1") none none none).2 ∧
    (oauth_authorize wClients wOldCodes 1000 "new" "code" (some "cid")
        (some "https://cb.example/oauth") (some "s1") none none none).1
      = .redirect "https://cb.example/oauth?code=new&state=s1" := by
  have h := oauth_authorize_success_effects wClients wOldCodes 1000 "new" "code"
    (some "cid") (some "https://cb.example/oauth") (some "s1") none none none wClient
    rfl rfl (by decide) (by decide) rfl (Or.inr ⟨"s1", rfl, by decide⟩)
  refine ⟨h.1, ?_, ?_⟩
  · intro hmem
    exact absurd (h.2.2.1 _ hmem) (by decide)
  · rw [h.2.2.2.2]
    decide

/-- Sample fetched records for the comparison example (20 degrees C,
humidity 60 percent versus 15 degrees C, humidity 50 percent). -/
def wRec20 : MainRecord :=
  { city := "CityA", temperature := 20, humidity := 60, lat := 0, lon := 0 }

/-- The cooler sample record. -/
def wRec15 : MainRecord :=
  { city := "CityB", temperature := 15, humidity := 50, lat := 0, lon := 0 }

/-- Agreement on the five fields the listing reads. -/
def sameVisible (p q : String × ClientData) : Prop :=
  p.1 = q.1 ∧ p.2.name = q.2.name ∧ p.2.redirect_uris = q.2.redirect_uris ∧
    p.2.created_at = q.2.created_at ∧ p.2.active = q.2.active

lemma list_clients_congr : ∀ {c1 c2 : ClientStore},
    List.Forall₂ sameVisible c1 c2 → list_clients c1 = list_clients c2 := by
  intro c1 c2 h
  induction h with
  | nil => rfl
  | @cons p q l1 l2 hpq htail ih =>
    obtain ⟨h1, h2, h3, h4, h5⟩ := hpq
    simp only [list_clients]
    rw [h1, h2, h3, h4, h5, ih]

lemma list_clients_ok_created_at : ∀ (clients : ClientStore) (l : List ListedClient),
    list_clients clients = .ok l → ∀ p ∈ clients, p.2.created_at ≠ none := by
  intro clients
  induction clients with
  | nil =>
    intro l h p hp
    simp at hp
  | cons q rest ih =>
    intro l h p hp
    simp only [list_clients] at h
    cases hc : q.2.created_at with
    | none =>
      rw [hc] at h
      exact absurd h (by simp)
    | some t =>
      rw [hc] at h
      cases hr : list_clients rest with
      | error e =>
        rw [hr] at h
        exact absurd h (by simp)
      | ok l2 =>
        rcases List.mem_cons.mp hp with rfl | hp2
        · rw [hc]
          simp
        · exact ih l2 hr p hp2

lemma list_clients_total_of_created_at : ∀ clients : ClientStore,
    (∀ p ∈ clients, p.2.created_at ≠ none) → ∃ l, list_clients clients = .ok l := by
  intro clients
  induction clients with
  | nil =>
    intro h
    exact ⟨[], rfl⟩
  | cons q rest ih =>
    intro h
    obtain ⟨l2, hl2⟩ := ih (fun p hp => h p (List.mem_cons_of_mem _ hp))
    cases hc : q.2.created_at with
    | none => exact absurd hc (h q (List.mem_cons_self _ _))
    | some t =>
      have hcons : list_clients (q :: rest) = .ok
          ({ client_id := q.1
             name := q.2.name
             redirect_uris := q.2.redirect_uris
             created_at := t
             active := q.2.active } :: l2) := by
        simp only [list_clients]
        rw [hc, hl2]
      exact ⟨_, hcons⟩

/-- C6: compare_weather names city1 warmer exactly when its temperature
is strictly greater, and city2 otherwise (so ties go to the second
argument); the reported temperature and humidity differences are the
absolute differences. The app/mcp prototype makes the same selection. -/
theorem compare_weather_selection
    (city1 city2 : String) (w1 w2 : MainRecord) :
    (w1.temperature > w2.temperature →
       (compare_weather city1 city2 w1 w2).warmer_city = city1) ∧
    (w1.temperature ≤ w2.temperature →
       (compare_weather city1 city2 w1 w2).warmer_city = city2) ∧
    (compare_weather city1 city2 w1 w2).temp_diff
        = |w1.temperature - w2.temperature| ∧
    (compare_weather city1 city2 w1 w2).humidity_diff
        = |w1.humidity - w2.humidity| ∧
    (∀ a1 a2 : AppRecord, a1.temperature > a2.temperature →
       app_compare_warmer city1 city2 a1 a2 = city1) ∧
    (∀ a1 a2 : AppRecord, a1.temperature ≤ a2.temperature →
       app_compare_warmer city1 city2 a1 a2 = city2) := by
  refine ⟨?_, ?_, rfl, rfl, ?_, ?_⟩
  · intro h
    simp [compare_weather, h]
  · intro h
    simp [compare_weather, not_lt.mpr h]
  · intro a1 a2 h
    simp [app_compare_warmer, h]
  · intro a1 a2 h
    simp [app_compare_warmer, not_lt.mpr h]

/-- Witness for C6: 20 degrees versus 15 degrees names the first city
warmer by 5.0 with humidity difference 10, and equal temperatures name
the second city. -/
theorem compare_weather_selection_witness :
    (compare_weather "CityA" "CityB" wRec20 wRec15).warmer_city = "CityA" ∧
    (compare_weather "CityA" "CityB" wRec20 wRec15).temp_diff = 5 ∧
    (compare_weather "CityA" "CityB" wRec20 wRec15).humidity_diff = 10 ∧
    (compare_weather "CityA" "CityB" wRec20 wRec20).warmer_city = "CityB" := by
  have h := compare_weather_selection "CityA" "CityB" wRec20 wRec15
  have h2 := compare_weather_selection "CityA" "CityB" wRec20 wRec20
  refine ⟨h.1 (by norm_num [wRec20, wRec15]), ?_, ?_, h2.2.1 le_rfl⟩
  · rw [h.2.2.1]
    norm_num [wRec20, wRec15]
  · rw [h.2.2.2.1]
    norm_num [wRec20, wRec15]

/-- C7 counterexample: the claim quantifies over both implementations,
but in the app/services implementation a network-level fault on the
geocoding call propagates as a raw httpx exception instead of any
UpstreamError-style error response. -/
theorem app_get_weather_network_fault_counterexample :
    app_get_weather true .fault (.response 200 (.record ⟨"London", 20, 50⟩))
        = .raised .requestError ∧
    (app_get_weather true .fault
        (.response 200 (.record ⟨"London", 20, 50⟩))).isUpstreamErr = false :=
  ⟨rfl, rfl⟩

/-- C7 amended: in the main.py implementation of
WeatherService.get_weather, a network fault or a non-success status on
either upstream call yields an UpstreamError-style HTTPException, and
no input makes it propagate a raw exception. -/
theorem main_get_weather_upstream_total (wx : UpstreamOutcome WxBody) :
    (main_get_weather true .fault wx).isUpstreamErr = true ∧
    (∀ (s : Nat) (b : GeoBody), s ≠ 200 →
       (main_get_weather true (.response s b) wx).isUpstreamErr = true) ∧
    (∀ (e : GeoEntry) (l : List GeoEntry),
       (main_get_weather true (.response 200 (.entries (e :: l)))
           .fault).isUpstreamErr = true) ∧
    (∀ (e : GeoEntry) (l : List GeoEntry) (s : Nat) (b : WxBody), s ≠ 200 →
       (main_get_weather true (.response 200 (.entries (e :: l)))
           (.response s b)).isUpstreamErr = true) ∧
    (∀ (hasKey : Bool) (g : UpstreamOutcome GeoBody) (w : UpstreamOutcome WxBody)
       (r : RawExn), main_get_weather hasKey g w ≠ .raised r) := by
  refine ⟨rfl, ?_, ?_, ?_, ?_⟩
  · intro s b hs
    simp [main_get_weather, hs, FetchOutcome.isUpstreamErr]
  · intro e l
    simp [main_get_weather, FetchOutcome.isUpstreamErr]
  · intro e l s b hs
    simp [main_get_weather, hs, FetchOutcome.isUpstreamErr]
  · intro hasKey g w r
    cases hasKey with
    | false => simp [main_get_weather]
    | true =>
      cases g with
      | fault => simp [main_get_weather]
      | response gs gb =>
        by_cases hgs : gs = 200
        · subst hgs
          cases gb with
          | errorObject => simp [main_get_weather]
          | entries l =>
            cases l with
            | nil => simp [main_get_weather]
            | cons e rest =>
              cases w with
              | fault => simp [main_get_weather]
              | response ws wb =>
                by_cases hws : ws = 200
                · subst hws
                  cases wb <;> simp [main_get_weather]
                · simp [main_get_weather, hws]
        · simp [main_get_weather, hgs]

/-- Witness for C7 amended: concrete faulty upstreams all map to
upstream errors in the main.py implementation. -/
theorem main_get_weather_upstream_total_witness :
    (main_get_weather true .fault
        (.response 200 (.record ⟨"London", 20, 50⟩))).isUpstreamErr = true ∧
    (main_get_weather true (.response 503 .errorObject)
        (.response 200 (.record ⟨"London", 20, 50⟩))).isUpstreamErr = true ∧
    (main_get_weather true (.response 200 (.entries [⟨51, 0⟩]))
        (.response 503 (.record ⟨"London", 20, 50⟩))).isUpstreamErr = true := by
  have h1 := main_get_weather_upstream_total (.response 200 (.record ⟨"London", 20, 50⟩))
  have h2 := main_get_weather_upstream_total (.response 503 (.record ⟨"London", 20, 50⟩))
  exact ⟨h1.1, h1.2.1 503 .errorObject (by decide),
    h2.2.2.2.1 ⟨51, 0⟩ [] 503 (.record ⟨"London", 20, 50⟩) (by decide)⟩

/-- C8: the /api/clients listing never exposes client_secret. The
listing depends only on the five exposed fields (any two registries
agreeing on them produce identical listings), every successful listing
is exactly the projection of the registry onto those five fields, and
in particular registering the same client with different secrets
yields identical listings. -/
theorem list_clients_excludes_secret :
    (∀ c1 c2 : ClientStore, List.Forall₂ sameVisible c1 c2 →
       list_clients c1 = list_clients c2) ∧
    (∀ (clients : ClientStore) (l : List ListedClient),
       list_clients clients = .ok l →
       List.Forall₂ (fun (p : String × ClientData) (q : ListedClient) =>
         q.client_id = p.1 ∧ q.name = p.2.name ∧
           q.redirect_uris = p.2.redirect_uris ∧
           some q.created_at = p.2.created_at ∧ q.active = p.2.active) clients l) ∧
    (∀ (clients : ClientStore) (name : Option String) (uris : Option (List String))
       (fid s1 s2 : String) (now : Nat),
       list_clients (storeInsert clients (register_client name uris fid s1 now).1
           (register_client name uris fid s1 now).2)
         = list_clients (storeInsert clients (register_client name uris fid s2 now).1
             (register_client name uris fid s2 now).2)) := by
  refine ⟨fun c1 c2 => list_clients_congr, ?_, ?_⟩
  · intro clients
    induction clients with
    | nil =>
      intro l h
      simp only [list_clients] at h
      obtain rfl : ([] : List ListedClient) = l := by
        simpa using h
      exact List.Forall₂.nil
    | cons q rest ih =>
      intro l h
      simp only [list_clients] at h
      cases hc : q.2.created_at with
      | none =>
        rw [hc] at h
        exact absurd h (by simp)
      | some t =>
        rw [hc] at h
        cases hr : list_clients rest with
        | error e =>
          rw [hr] at h
          exact absurd h (by simp)
        | ok l2 =>
          rw [hr] at h
          obtain rfl : _ = l := by
            simpa using h
          exact List.Forall₂.cons ⟨rfl, rfl, rfl, by rw [hc], rfl⟩ (ih l2 hr)
  · intro clients name uris fid s1 s2 now
    simp only [storeInsert]
    exact list_clients_congr
      (List.rel_append
        (List.forall₂_same.mpr (fun x _ => ⟨rfl, rfl, rfl, rfl, rfl⟩))
        (List.Forall₂.cons ⟨rfl, rfl, rfl, rfl, rfl⟩ List.Forall₂.nil))

/-- Witness for C8: two registrations differing only in the generated
secret produce the same listing over the sample registry, and the
successful listing of the sample registry is its five-field
projection. -/
theorem list_clients_excludes_secret_witness :
    list_clients (storeInsert wClients (register_client (some "X") none "i" "sA" 5).1
        (register_client (some "X") none "i" "sA" 5).2)
      = list_clients (storeInsert wClients (register_client (some "X") none "i" "sB" 5).1
          (register_client (some "X") none "i" "sB" 5).2) ∧
    List.Forall₂ (fun (p : String × ClientData) (q : ListedClient) =>
      q.client_id = p.1 ∧ q.name = p.2.name ∧
        q.redirect_uris = p.2.redirect_uris ∧
        some q.created_at = p.2.created_at ∧ q.active = p.2.active) wClients
      [{ client_id := "cid"
         name := "AWS QuickSight Weather Integration"
         redirect_uris := ["https://cb.example/oauth"]
         created_at := 0
         active := true }] := by
  refine ⟨list_clients_excludes_secret.2.2 wClients (some "X") none "i" "sA" "sB" 5, ?_⟩
  exact list_clients_excludes_secret.2.1 wClients _ rfl

/-- C9 (code bug): the /sse handler passes the async generator object
to the plain Response constructor, whose render step calls encode on
its content; an async generator has no encode attribute, so the
request dies with an AttributeError before any event is sent. The
generator itself, had it been streamed, would yield one mcp_connected
event first and only heartbeats afterwards. -/
theorem sse_response_render_bug :
    mcp_sse_endpoint = .error .attributeError ∧
    sse_event_sequence 0 = .mcp_connected ∧
    ∀ n : Nat, sse_event_sequence (n + 1) = .heartbeat :=
  ⟨rfl, rfl, fun _ => rfl⟩

/-- C10: with AWS_CLIENT_ID unset the registry holds the fallback
record, which has no created_at key, and GET /api/clients then fails
with a KeyError on created_at; the listing succeeds exactly on
registries whose every record carries created_at. -/
theorem list_clients_partial_on_fallback (awsSecret : String) (now : Nat) :
    storeLookup (initClients "" awsSecret now) "aws_config_missing"
        = some
          { client_secret := "env_vars_not_set"
            name := "CONFIGURATION REQUIRED - Set AWS_CLIENT_ID and AWS_CLIENT_SECRET in Railway"
            redirect_uris := []
            created_at := none
            scopes := []
            active := false } ∧
    list_clients (initClients "" awsSecret now) = .error "created_at" ∧
    (∀ clients : ClientStore,
       (∃ l, list_clients clients = .ok l) ↔ ∀ p ∈ clients, p.2.created_at ≠ none) := by
  refine ⟨by simp [initClients, storeLookup], by simp [initClients, list_clients], ?_⟩
  intro clients
  constructor
  · rintro ⟨l, hl⟩
    exact list_clients_ok_created_at clients l hl
  · exact list_clients_total_of_created_at clients

/-- Witness for C10: a concrete unset-environment registry fails to
list, while the sample registry (whose record has created_at) lists
successfully. -/
theorem list_clients_partial_on_fallback_witness :
    list_clients (initClients "" "whatever" 7) = .error "created_at" ∧
    ∃ l, list_clients wClients = .ok l := by
  have h := list_clients_partial_on_fallback "whatever" 7
  exact ⟨h.2.1, (h.2.2 wClients).mpr (by decide)⟩

end WeatherMCP
